import Mathlib

/-!
Shallow embedding of the amerta-coffee-api cart/checkout core
(src/services/cart.ts and the cart helper module), together with the
invoice-number helper.  Prisma's interactive `$transaction` is modelled by
running the body on a working state and discarding it on error; machine
numbers are modelled as `Int`/`ℚ`, and a JavaScript number that may be `NaN`
is modelled as `Option ℚ` with `none` standing for `NaN`.
-/

namespace Amerta

/-- A value stored in the nullable `price MONEY` column, as seen by the
JavaScript code: `null`, a numeric value, or a value whose `Number(...)`
conversion is `NaN`. -/
inductive PriceVal where
  | null : PriceVal
  | num : ℚ → PriceVal
  | nan : PriceVal
deriving Repr, DecidableEq

/-- JavaScript `Number(price)`: `Number(null) = 0`, a numeric value converts
to itself, and the `NaN` case is `none`. -/
def jsNumber : PriceVal → Option ℚ
  | .null => some 0
  | .num v => some v
  | .nan => none

/-- JavaScript addition on possibly-`NaN` numbers: `NaN` is absorbing. -/
def jsAdd : Option ℚ → Option ℚ → Option ℚ
  | some a, some b => some (a + b)
  | _, _ => none

/-- JavaScript multiplication of an integer quantity by a possibly-`NaN`
number: `NaN` is absorbing. -/
def jsScale (q : Int) : Option ℚ → Option ℚ
  | some a => some (q * a)
  | none => none

/-- A row of the `products` table, restricted to the columns the cart and
checkout code selects. -/
structure Product where
  id : String
  name : String
  price : PriceVal
  stockQty : Int
deriving Repr, DecidableEq

/-- A `cart_items` row: the cart reference is implicit in the owning `Cart`. -/
structure CartItemRow where
  productId : String
  quantity : Int
deriving Repr, DecidableEq

/-- A `carts` row together with its `cart_items`. -/
structure Cart where
  id : String
  userId : String
  items : List CartItemRow
deriving Repr, DecidableEq

/-- A `user_addresses` row, restricted to what checkout reads. -/
structure UserAddress where
  id : String
  userId : String
deriving Repr, DecidableEq

/-- An `order_items` row created by checkout. -/
structure OrderItem where
  productId : String
  quantity : Int
  price : PriceVal
deriving Repr, DecidableEq

/-- An `orders` row created by checkout (with its nested order items). -/
structure Order where
  id : String
  userId : String
  totalPrice : Option ℚ
  status : String
  shippingAddressId : String
  orderItems : List OrderItem
deriving Repr, DecidableEq

/-- A `transactions` row created by checkout. -/
structure Transaction where
  noInvoice : String
  amount : Option ℚ
  status : String
  orderId : String
deriving Repr, DecidableEq

/-- The slice of the database that the cart/checkout code reads and writes. -/
structure DbState where
  products : List Product
  carts : List Cart
  addresses : List UserAddress
  orders : List Order
  transactions : List Transaction
deriving Repr, DecidableEq

/-! ## Helper module (`helpers/cart.ts`) -/

/-- Lookup in the `{ [productId]: stockQty }` object built by checkout,
modelled as an association list; an absent key is JavaScript `undefined`. -/
def stockLookup (productStock : List (String × Int)) (pid : String) : Option Int :=
  (productStock.find? (fun e => e.fst == pid)).map Prod.snd

/-- The filter predicate `productStock[item.productId] < item.quantity` of
`validateProductStock`.  When the key is absent the JavaScript comparison is
`undefined < quantity`, which is `false`, so an absent product never counts
as insufficient. -/
def stockBelowRequested (productStock : List (String × Int)) (item : CartItemRow) : Bool :=
  match stockLookup productStock item.productId with
  | some s => s < item.quantity
  | none => false

/-- `validateProductStock` from `helpers/cart.ts`: collects every cart item
whose requested quantity exceeds its mapped stock and throws (here: returns
`Except.error`) the list of their product ids joined into the message. -/
def validateProductStock (cartItems : List CartItemRow)
    (productStock : List (String × Int)) : Except (List String) Unit :=
  let insufficient := cartItems.filter (stockBelowRequested productStock)
  if insufficient.isEmpty then Except.ok ()
  else Except.error (insufficient.map CartItemRow.productId)

/-- The message of the error thrown by `validateProductStock`. -/
def insufficientStockMessage (productIds : List String) : String :=
  "Insufficient stock for product(s): " ++ String.intercalate ", " productIds

/-- The reduce body of `calculateTotalPrice` in `helpers/cart.ts`:
`acc + item.quantity * Number(product?.price || 0)`.  A product id with no
matching product contributes `Number(0) = 0`; a `null` price is falsy, so it
also contributes `0`; a numeric price contributes its value; a
`NaN`-converting price poisons the whole sum. -/
def totalStep (products : List Product) (acc : Option ℚ) (item : CartItemRow) : Option ℚ :=
  let price : Option ℚ :=
    match products.find? (fun p => p.id == item.productId) with
    | none => some 0
    | some p => jsNumber p.price
  jsAdd acc (jsScale item.quantity price)

/-- `calculateTotalPrice` from `helpers/cart.ts`: the reduce of `totalStep`
over the cart items, starting from `0`. -/
def calculateTotalPrice (cartItems : List CartItemRow)
    (products : List Product) : Option ℚ :=
  cartItems.foldl (totalStep products) (some 0)

/-! ## Invoice numbers (`generateInvoiceNumber` in `helpers/cart.ts`) -/

/-- The default `nanoid` alphabet (the URL-safe alphabet of 64 symbols). -/
def nanoidUrlAlphabet : List Char :=
  "useandom-26T198340PX75pxJACKVERYMINDBUSHWOLF_GQZbfghjklqvwyzrict".toList

/-- One random symbol drawn by `nanoid`, indexed by the random choice. -/
def nanoidChar (i : Fin 64) : Char :=
  nanoidUrlAlphabet.getD i.val 'u'

/-- `nanoid(picks.length)` with its random choices made explicit. -/
def nanoid (picks : List (Fin 64)) : String :=
  String.mk (picks.map nanoidChar)

/-- Decimal digits of a natural number, most significant first; the fuel
argument only bounds the recursion depth and any `fuel > n` is enough. -/
def natDecimalAux : Nat → Nat → List Char
  | 0, _ => []
  | fuel + 1, n =>
    if n < 10 then [Char.ofNat (48 + n)]
    else natDecimalAux fuel (n / 10) ++ [Char.ofNat (48 + n % 10)]

/-- Decimal digits of a natural number, most significant first. -/
def natDecimal (n : Nat) : List Char :=
  natDecimalAux (n + 1) n

/-- Zero-padding to a given width, as `date-fns` does for `yyyy`/`MM`/`dd`. -/
def padDigits (width : Nat) (n : Nat) : List Char :=
  List.replicate (width - (natDecimal n).length) '0' ++ natDecimal n

/-- `format(today, "yyyyMMdd")` applied to an explicit calendar date. -/
def formatYyyymmdd (y m d : Nat) : String :=
  String.mk (padDigits 4 y ++ padDigits 2 m ++ padDigits 2 d)

/-- `generateInvoiceNumber` from `helpers/cart.ts`, with the generation date
and the six random `nanoid` choices made explicit parameters. -/
def generateInvoiceNumber (y m d : Nat) (picks : List (Fin 64)) : String :=
  "INV-" ++ formatYyyymmdd y m d ++ "-" ++ nanoid picks

/-! ## Cart service (`services/cart.ts`) -/

/-- `prisma.cart.findUnique({ where: { userId } })` / the cart located by the
`cart: { userId }` relation filter. -/
def findCart (s : DbState) (userId : String) : Option Cart :=
  s.carts.find? (fun c => c.userId == userId)

/-- `prisma.cart.upsert({ where: { userId }, create: { userId }, update: {} })`:
returns the existing cart, or appends a fresh empty one (the generated id is
an explicit parameter). -/
def upsertCart (s : DbState) (userId freshCartId : String) : DbState × Cart :=
  match findCart s userId with
  | some c => (s, c)
  | none =>
    let c : Cart := { id := freshCartId, userId := userId, items := [] }
    ({ s with carts := s.carts ++ [c] }, c)

/-- `prisma.product.findUnique({ where: { id: productId } })`. -/
def findProduct (s : DbState) (productId : String) : Option Product :=
  s.products.find? (fun p => p.id == productId)

/-- `prisma.cartItem.findFirst({ where: { cart: { userId }, productId } })`. -/
def findCartItem (s : DbState) (userId productId : String) : Option CartItemRow :=
  (findCart s userId).bind (fun c => c.items.find? (fun it => it.productId == productId))

/-- The quantity of the user's existing cart item for a product, or `0`
(`cartItem?.quantity || 0`). -/
def existingCartQuantity (s : DbState) (userId productId : String) : Int :=
  match findCartItem s userId productId with
  | some it => it.quantity
  | none => 0

/-- The typed errors thrown by `addOrUpdateCartItem`. -/
inductive CartError where
  | productNotFound : CartError
  | invalidQuantity : String → Int → CartError
  | cartItemNotFound : CartError
deriving Repr, DecidableEq

/-- The `message` field of each thrown object in `addOrUpdateCartItem`. -/
def cartErrorMessage : CartError → String
  | .productNotFound => "Product not found"
  | .invalidQuantity name availableStock =>
    "Product " ++ name ++ " has only " ++ toString availableStock ++ " available stock!"
  | .cartItemNotFound => "Cart item not found!"

/-- The successful outcomes of `addOrUpdateCartItem`: a removal confirmation,
or the upserted cart item together with the created/updated distinction. -/
inductive UpsertOutcome where
  | removed : String → UpsertOutcome
  | updated : CartItemRow → UpsertOutcome
  | added : CartItemRow → UpsertOutcome
deriving Repr, DecidableEq

/-- The `message` string returned with each successful outcome. -/
def upsertOutcomeMessage : UpsertOutcome → String
  | .removed name => "Successfully removed product " ++ name ++ " from cart!"
  | .updated _ => "Successfully updated cart item!"
  | .added _ => "Successfully added product to cart!"

/-- The body of the `$transaction` closure of `addOrUpdateCartItem`
(`services/cart.ts`): resolve cart, product and existing item from the
transaction snapshot, fail on missing product, compute
`newQuantity = isIncrement ? existingQty + quantity : quantity`, fail when it
exceeds `product.stockQty`, handle the set-to-zero removal, otherwise upsert
the `(cartId, productId)` row. -/
def addOrUpdateCartItemTx (s : DbState) (userId productId : String)
    (quantity : Int) ( isIncrement : Bool) (freshCartId : String) :
    Except CartError (DbState × UpsertOutcome) :=
  let su := upsertCart s userId freshCartId
  let cart := su.snd
  match findProduct s productId with
  | none => Except.error CartError.productNotFound
  | some product =>
    let availableStock := product.stockQty
    let newQuantity :=
      if isIncrement then existingCartQuantity s userId productId + quantity
      else quantity
    if availableStock < newQuantity then
      Except.error (CartError.invalidQuantity product.name availableStock)
    else if !isIncrement && newQuantity == 0 then
      match findCartItem s userId productId with
      | none => Except.error CartError.cartItemNotFound
      | some _ =>
        let s2 := { su.fst with
          carts := su.fst.carts.map (fun c =>
            if c.id == cart.id then
              { c with items := c.items.filter (fun it => !(it.productId == productId)) }
            else c) }
        Except.ok (s2, UpsertOutcome.removed product.name)
    else
      match cart.items.find? (fun it => it.productId == productId) with
      | some existing =>
        let updatedQty := if isIncrement then existing.quantity + quantity else newQuantity
        let s2 := { su.fst with
          carts := su.fst.carts.map (fun c =>
            if c.id == cart.id then
              { c with items := c.items.map (fun it =>
                  if it.productId == productId then { it with quantity := updatedQty }
                  else it) }
            else c) }
        let outcome :=
          match findCartItem s userId productId with
          | some _ => UpsertOutcome.updated { productId := productId, quantity := updatedQty }
          | none => UpsertOutcome.added { productId := productId, quantity := updatedQty }
        Except.ok (s2, outcome)
      | none =>
        let s2 := { su.fst with
          carts := su.fst.carts.map (fun c =>
            if c.id == cart.id then
              { c with items := c.items ++ [{ productId := productId, quantity := quantity }] }
            else c) }
        let outcome :=
          match findCartItem s userId productId with
          | some _ => UpsertOutcome.updated { productId := productId, quantity := quantity }
          | none => UpsertOutcome.added { productId := productId, quantity := quantity }
        Except.ok (s2, outcome)

/-- `addOrUpdateCartItem` as observed from outside the `$transaction`: a
thrown error rolls every write back, so the original state is kept. -/
def addOrUpdateCartItem (s : DbState) (userId productId : String)
    (quantity : Int) ( isIncrement : Bool) (freshCartId : String) :
    DbState × Except CartError UpsertOutcome :=
  match addOrUpdateCartItemTx s userId productId quantity isIncrement freshCartId with
  | Except.error e => (s, Except.error e)
  | Except.ok (s2, r) => (s2, Except.ok r)

/-- The total computation of `getCart` (`services/cart.ts` lines 50–54) over
the joined `(quantity, product.price)` pairs:
`reduce((acc, item) => { const price = Number(item.product.price); if
(isNaN(price)) throw ...; return acc + item.quantity * price }, 0)`. -/
def getCartTotal : List (Int × PriceVal) → ℚ → Except String ℚ
  | [], acc => Except.ok acc
  | (q, pv) :: rest, acc =>
    match jsNumber pv with
    | none => Except.error "Invalid product price"
    | some price => getCartTotal rest (acc + q * price)

/-! ## Checkout (`services/cart.ts` lines 226–326) -/

/-- The typed errors thrown by `checkout`. -/
inductive CheckoutError where
  | cartEmpty : CheckoutError
  | shippingAddressNotFound : CheckoutError
  | insufficientStock : List String → CheckoutError
deriving Repr, DecidableEq

/-- The message of each error thrown by `checkout`. -/
def checkoutErrorMessage : CheckoutError → String
  | .cartEmpty => "Cart is empty"
  | .shippingAddressNotFound => "Shipping address not found"
  | .insufficientStock ids => insufficientStockMessage ids

/-- The result value of a successful `checkout`. -/
structure CheckoutResult where
  order : Order
  transaction : Transaction
deriving Repr, DecidableEq

/-- The `{ [id]: stockQty }` map checkout builds from
`product.findMany({ where: { id: { in: productIds } } })`. -/
def checkoutProductStock (s : DbState) (cart : Cart) : List (String × Int) :=
  (s.products.filter (fun p => (cart.items.map CartItemRow.productId).contains p.id)).map
    (fun p => (p.id, p.stockQty))

/-- The products fetched by checkout for total computation (same `findMany`). -/
def checkoutProducts (s : DbState) (cart : Cart) : List Product :=
  s.products.filter (fun p => (cart.items.map CartItemRow.productId).contains p.id)

/-- The order items checkout nests into `order.create`, copying
`item.product.price` from the include-joined product of each cart item. -/
def checkoutOrderItems (s : DbState) (cart : Cart) : List OrderItem :=
  cart.items.filterMap (fun it =>
    (findProduct s it.productId).map (fun p =>
      { productId := it.productId, quantity := it.quantity, price := p.price }))

/-- The `decrementStock` accumulator step:
`acc[item.productId] = (acc[item.productId] || 0) + item.quantity`. -/
def bumpDecrement (acc : List (String × Int)) (item : CartItemRow) : List (String × Int) :=
  if acc.any (fun e => e.fst == item.productId) then
    acc.map (fun e =>
      if e.fst == item.productId then (e.fst, e.snd + item.quantity) else e)
  else acc ++ [(item.productId, item.quantity)]

/-- `decrementStock`: cart quantities aggregated per product id, in first-seen
order (`Object.entries` of the reduce-built object). -/
def decrementStock (items : List CartItemRow) : List (String × Int) :=
  items.foldl bumpDecrement []

/-- The `product.update({ data: { stockQty: { decrement } } })` batch applied
for each aggregated entry. -/
def applyStockUpdates (updates : List (String × Int)) (products : List Product) :
    List Product :=
  updates.foldl
    (fun ps u => ps.map (fun p =>
      if p.id == u.fst then { p with stockQty := p.stockQty - u.snd } else p))
    products

/-- The order row (with its nested order items) that `order.create` writes
in a successful checkout: total from `calculateTotalPrice`, status
`"pending"`, one item per cart item with the joined product's price. -/
def checkoutOrderOf (s : DbState) (userId shippingAddressId orderId : String)
    (cart : Cart) : Order :=
  { id := orderId, userId := userId,
    totalPrice := calculateTotalPrice cart.items (checkoutProducts s cart),
    status := "pending", shippingAddressId := shippingAddressId,
    orderItems := checkoutOrderItems s cart }

/-- The transaction row `transaction.create` writes in a successful
checkout: the generated invoice number, `amount: Number(order.totalPrice)`,
status `"Pending"`. -/
def checkoutTxnOf (s : DbState) (orderId invoice : String) (cart : Cart) : Transaction :=
  { noInvoice := invoice,
    amount := calculateTotalPrice cart.items (checkoutProducts s cart),
    status := "Pending", orderId := orderId }

/-- The store state a successful checkout commits: the new order appended,
stock decremented per aggregated cart quantity, the new transaction
appended, and the cart's items deleted (the cart row kept). -/
def checkoutFinalState (s : DbState) (userId shippingAddressId orderId invoice : String)
    (cart : Cart) : DbState :=
  { s with
    orders := s.orders ++ [checkoutOrderOf s userId shippingAddressId orderId cart],
    products := applyStockUpdates (decrementStock cart.items) s.products,
    transactions := s.transactions ++ [checkoutTxnOf s orderId invoice cart],
    carts := s.carts.map (fun c =>
      if c.id == cart.id then { c with items := [] } else c) }

/-- The body of the `$transaction` closure of `checkout`: load the cart with
its items, fail on empty, check the shipping address by id count, validate
stock, compute the total, create the order with nested items, decrement
stock, create the pending transaction, and delete the cart's items.  The
database-generated order id and the generated invoice number are explicit
parameters. -/
def checkoutTx (s : DbState) (userId shippingAddressId orderId invoice : String) :
    Except CheckoutError (DbState × CheckoutResult) :=
  match findCart s userId with
  | none => Except.error CheckoutError.cartEmpty
  | some cart =>
    if cart.items.isEmpty then Except.error CheckoutError.cartEmpty
    else if (s.addresses.filter (fun a => a.id == shippingAddressId)).length == 0 then
      Except.error CheckoutError.shippingAddressNotFound
    else
      match validateProductStock cart.items (checkoutProductStock s cart) with
      | Except.error ids => Except.error (CheckoutError.insufficientStock ids)
      | Except.ok _ =>
        Except.ok (checkoutFinalState s userId shippingAddressId orderId invoice cart,
          { order := checkoutOrderOf s userId shippingAddressId orderId cart,
            transaction := checkoutTxnOf s orderId invoice cart })

/-- `checkout` as observed from outside the `$transaction`: any thrown error
aborts the whole transaction, so the original state survives. -/
def checkout (s : DbState) (userId shippingAddressId orderId invoice : String) :
    DbState × Except CheckoutError CheckoutResult :=
  match checkoutTx s userId shippingAddressId orderId invoice with
  | Except.error e => (s, Except.error e)
  | Except.ok (s2, r) => (s2, Except.ok r)

/-! ## Spec-side formulations, for refinement comparisons -/

/-- The numeric price of a product in a given product list (`0` when the
product or a numeric price is missing); spec-side evaluator. -/
def priceNumIn (products : List Product) (pid : String) : ℚ :=
  match products.find? (fun p => p.id == pid) with
  | some p =>
    match p.price with
    | PriceVal.num v => v
    | _ => 0
  | none => 0

/-- The numeric price of a product in the full product table. -/
def productPriceNum (s : DbState) (pid : String) : ℚ :=
  priceNumIn s.products pid

/-- The stored price value of a product in the full product table. -/
def productPriceVal (s : DbState) (pid : String) : PriceVal :=
  match findProduct s pid with
  | some p => p.price
  | none => PriceVal.null

/-- Spec-side checkout total: the sum of quantity times product price over
the cart items. -/
def specCartTotal (s : DbState) (cart : Cart) : ℚ :=
  (cart.items.map (fun it => (it.quantity : ℚ) * productPriceNum s it.productId)).sum

/-- The total quantity a cart requests for one product id. -/
def cartQuantity (items : List CartItemRow) (pid : String) : Int :=
  ((items.filter (fun it => it.productId == pid)).map CartItemRow.quantity).sum

/-- The total decrement a list of stock updates applies to one product id. -/
def keySum (updates : List (String × Int)) (pid : String) : Int :=
  ((updates.filter (fun e => e.fst == pid)).map Prod.snd).sum

/-! ## Concrete states used as evaluation points -/

/-- A store with no rows at all. -/
def emptyDb : DbState :=
  { products := [], carts := [], addresses := [], orders := [], transactions := [] }

/-- The product of the spec's scenario: price 45000, stock 5. -/
def productA : Product :=
  { id := "pa", name := "Arabica", price := PriceVal.num 45000, stockQty := 5 }

/-- User u1's cart holding two units of `productA`. -/
def cartU1 : Cart :=
  { id := "c1", userId := "u1", items := [{ productId := "pa", quantity := 2 }] }

/-- A shipping address owned by a different user (u2). -/
def addressU2 : UserAddress := { id := "ad1", userId := "u2" }

/-- The scenario store: one product, u1's cart with one item, u2's address. -/
def dbScenario : DbState :=
  { products := [productA], carts := [cartU1], addresses := [addressU2],
    orders := [], transactions := [] }

/-- Six concrete random choices for the invoice generator. -/
def invoicePicks : List (Fin 64) :=
  [⟨0, by decide⟩, ⟨1, by decide⟩, ⟨2, by decide⟩,
   ⟨3, by decide⟩, ⟨4, by decide⟩, ⟨5, by decide⟩]

/-- User u1's cart asking for more units than `productA` has in stock. -/
def cartU1over : Cart :=
  { id := "c1", userId := "u1", items := [{ productId := "pa", quantity := 9 }] }

/-- The scenario store with the over-asking cart. -/
def dbOverstock : DbState :=
  { products := [productA], carts := [cartU1over], addresses := [addressU2],
    orders := [], transactions := [] }

/-! ## Theorems -/

/-- C1: Checkout atomicity — whenever `checkout` fails with any error, the
observed state keeps the cart items, creates no order, order item or
transaction row, and leaves every product's stock unchanged. -/
theorem checkout_failure_atomicity (s : DbState) (uid aid oid inv : String)
    (e : CheckoutError)
    (h : (checkout s uid aid oid inv).snd = Except.error e) :
    (checkout s uid aid oid inv).fst = s ∧
    (checkout s uid aid oid inv).fst.carts = s.carts ∧
    (checkout s uid aid oid inv).fst.orders = s.orders ∧
    (checkout s uid aid oid inv).fst.transactions = s.transactions ∧
    (checkout s uid aid oid inv).fst.products = s.products := by
  have hfst : (checkout s uid aid oid inv).fst = s := by
    unfold checkout at h ⊢
    cases hx : checkoutTx s uid aid oid inv with
    | error e2 => rfl
    | ok p =>
      rw [hx] at h
      cases p with
      | mk s2 r => simp at h
  exact ⟨hfst, by rw [hfst], by rw [hfst], by rw [hfst], by rw [hfst]⟩

/-- Witness for C1 at a concrete state: checkout on a store with no cart at
all fails with the empty-cart error, and the state is untouched. -/
theorem checkout_failure_atomicity_witness :
    (checkout emptyDb "u1" "a1" "o1" "inv1").snd =
      Except.error CheckoutError.cartEmpty ∧
    (checkout emptyDb "u1" "a1" "o1" "inv1").fst = emptyDb :=
  ⟨rfl,
   (checkout_failure_atomicity emptyDb "u1" "a1" "o1" "inv1"
      CheckoutError.cartEmpty rfl).1⟩

/-- C4: stock validation evaluated at a cart item whose product id is absent
from the stock mapping — the JavaScript comparison `undefined < quantity` is
`false`, so validation passes instead of failing: the vanished product is
effectively granted unlimited stock. -/
theorem validateProductStock_absent_product_passes :
    validateProductStock [{ productId := "p1", quantity := 1 }] [] = Except.ok () ∧
    stockBelowRequested [] { productId := "p1", quantity := 1 } = false :=
  ⟨rfl, rfl⟩

/-- C6 counterexample: an absent price does not make either total fail — the
checkout total treats a cart item whose product is missing as contributing
`0`, and the `getCart` total treats a `null` price as `Number(null) = 0`,
both silently succeeding. -/
theorem pricing_silent_zero_counterexample :
    calculateTotalPrice [{ productId := "p1", quantity := 2 }] [] = some 0 ∧
    getCartTotal [((2 : Int), PriceVal.null)] 0 = Except.ok 0 := by
  constructor
  · simp [calculateTotalPrice, totalStep, jsAdd, jsScale]
  · simp [getCartTotal, jsNumber]

/-- C6 amended: only the `getCart` total fails fast, and only on a price
whose `Number(...)` conversion is `NaN`; a `null` (absent) price contributes
`0` to the `getCart` total, and the checkout total never fails — a cart item
whose product is absent contributes `0` to the sum. -/
theorem pricing_policy_amended (q : Int) (rest : List (Int × PriceVal)) (acc : ℚ)
    (it : CartItemRow) (l : List CartItemRow) (ps : List Product)
    (habsent : ps.find? (fun p => p.id == it.productId) = none) :
    getCartTotal ((q, PriceVal.nan) :: rest) acc = Except.error "Invalid product price" ∧
    getCartTotal ((q, PriceVal.null) :: rest) acc = getCartTotal rest acc ∧
    calculateTotalPrice (it :: l) ps = calculateTotalPrice l ps := by
  refine ⟨rfl, ?_, ?_⟩
  · show getCartTotal rest (acc + q * 0) = getCartTotal rest acc
    rw [mul_zero, add_zero]
  · unfold calculateTotalPrice
    rw [List.foldl_cons]
    have hstep : totalStep ps (some 0) it = some 0 := by
      unfold totalStep
      rw [habsent]
      simp [jsAdd, jsScale]
    rw [hstep]

/-- Witness for C6 amended at concrete inputs. -/
theorem pricing_policy_amended_witness :
    getCartTotal [((3 : Int), PriceVal.nan)] 1 = Except.error "Invalid product price" ∧
    getCartTotal [((3 : Int), PriceVal.null)] 1 = getCartTotal [] 1 ∧
    calculateTotalPrice [{ productId := "gone", quantity := 3 }] [] =
      calculateTotalPrice [] [] :=
  pricing_policy_amended 3 [] 1 { productId := "gone", quantity := 3 } [] [] rfl

/-- `find?` by user id commutes with a cart rewrite that keeps user ids. -/
theorem findCart_map_of_userId_eq (l : List Cart) (g : Cart → Cart) (uid : String)
    (hg : ∀ c, (g c).userId = c.userId) :
    (l.map g).find? (fun c => c.userId == uid) =
      ((l.find? (fun c => c.userId == uid)).map g) := by
  have hcomp : ((fun c => c.userId == uid) ∘ g) = (fun c : Cart => c.userId == uid) := by
    funext c
    simp [Function.comp, hg]
  rw [List.find?_map, hcomp]

/-- `findCart` after rewriting every cart in a way that keeps user ids. -/
theorem findCart_update_carts (s : DbState) (g : Cart → Cart) (uid : String)
    (hg : ∀ c, (g c).userId = c.userId) :
    findCart { s with carts := s.carts.map g } uid = (findCart s uid).map g := by
  unfold findCart
  exact findCart_map_of_userId_eq s.carts g uid hg

/-- Items filtered on a different product id really exclude that id. -/
theorem mem_filter_productId_ne (items : List CartItemRow) (pid : String) :
    ∀ it ∈ items.filter (fun it => !(it.productId == pid)), it.productId ≠ pid := by
  intro it hit
  rcases List.mem_filter.mp hit with ⟨-, h⟩
  simpa using h

/-- C5: upsertItem quantity bound — with the target product present,
`newQuantity` is the existing quantity plus the request in INCREMENT mode and
the request itself in SET mode, and whenever it exceeds the product's stock
the operation fails with INVALID_QUANTITY carrying the product's name and its
available stock, leaving the whole state unchanged. -/
theorem upsertItem_invalid_quantity_bound (s : DbState) (uid pid : String)
    (q : Int) (mode : Bool) (freshId : String) (p : Product)
    (hp : findProduct s pid = some p)
    (hq : p.stockQty < (if mode then existingCartQuantity s uid pid + q else q)) :
    addOrUpdateCartItem s uid pid q mode freshId =
      (s, Except.error (CartError.invalidQuantity p.name p.stockQty)) := by
  unfold addOrUpdateCartItem addOrUpdateCartItemTx
  rw [hp]
  simp only [if_pos hq]

/-- Witness for C5: stock 3, increment by 5 on an empty cart fails with
INVALID_QUANTITY naming the product and its available stock. -/
theorem upsertItem_invalid_quantity_bound_witness :
    findProduct
        { products := [{ id := "pa", name := "Arabica", price := PriceVal.num 45000,
                         stockQty := 3 }],
          carts := [], addresses := [], orders := [], transactions := [] } "pa" =
      some { id := "pa", name := "Arabica", price := PriceVal.num 45000, stockQty := 3 } ∧
    addOrUpdateCartItem
        { products := [{ id := "pa", name := "Arabica", price := PriceVal.num 45000,
                         stockQty := 3 }],
          carts := [], addresses := [], orders := [], transactions := [] }
        "u1" "pa" 5 true "c1" =
      ({ products := [{ id := "pa", name := "Arabica", price := PriceVal.num 45000,
                        stockQty := 3 }],
         carts := [], addresses := [], orders := [], transactions := [] },
       Except.error (CartError.invalidQuantity "Arabica" 3)) :=
  ⟨rfl,
   upsertItem_invalid_quantity_bound _ "u1" "pa" 5 true "c1"
     { id := "pa", name := "Arabica", price := PriceVal.num 45000, stockQty := 3 }
     rfl (by decide)⟩

/-- C8: set-to-zero removal — with the product present and non-negative
stock, upsertItem in SET mode with quantity 0 fails with CART_ITEM_NOT_FOUND
when no cart item for the pair exists, and otherwise deletes the existing
cart item, returns a removal confirmation, keeps no row for that product in
the user's cart, and touches no other table. -/
theorem upsertItem_set_zero_removal (s : DbState) (uid pid freshId : String)
    (p : Product) (hp : findProduct s pid = some p) (hst : 0 ≤ p.stockQty) :
    (findCartItem s uid pid = none →
      addOrUpdateCartItem s uid pid 0 false freshId =
        (s, Except.error CartError.cartItemNotFound)) ∧
    (∀ c0 it0, findCart s uid = some c0 → findCartItem s uid pid = some it0 →
      ∃ s2, addOrUpdateCartItem s uid pid 0 false freshId =
          (s2, Except.ok (UpsertOutcome.removed p.name)) ∧
        findCart s2 uid =
          some { c0 with items := c0.items.filter (fun it => !(it.productId == pid)) } ∧
        (∀ it ∈ c0.items.filter (fun it => !(it.productId == pid)), it.productId ≠ pid) ∧
        s2.products = s.products ∧ s2.orders = s.orders ∧
        s2.transactions = s.transactions) := by
  have hguard : ¬ (p.stockQty < (0 : Int)) := by omega
  constructor
  · intro hnone
    unfold addOrUpdateCartItem addOrUpdateCartItemTx
    rw [hp]
    simp [hnone, hguard]
  · intro c0 it0 hc0 hsome
    have hupsert : upsertCart s uid freshId = (s, c0) := by
      unfold upsertCart
      rw [hc0]
    have hg : ∀ c : Cart,
        ((fun c : Cart =>
          if c.id == c0.id then
            { c with items := c.items.filter (fun it => !(it.productId == pid)) }
          else c) c).userId = c.userId := by
      intro c
      by_cases h : (c.id == c0.id) = true <;> simp [h]
    refine ⟨{ s with carts := s.carts.map (fun c =>
        if c.id == c0.id then
          { c with items := c.items.filter (fun it => !(it.productId == pid)) }
        else c) }, ?_, ?_, mem_filter_productId_ne c0.items pid, rfl, rfl, rfl⟩
    · unfold addOrUpdateCartItem addOrUpdateCartItemTx
      rw [hp]
      simp [hupsert, hsome, hguard]
    · rw [findCart_update_carts s _ uid hg, hc0]
      simp

/-- The filter predicate of stock validation holds exactly when the item's
product is present in the stock map with less stock than requested. -/
theorem stockBelowRequested_iff (m : List (String × Int)) (it : CartItemRow) :
    stockBelowRequested m it = true ↔
      ∃ st, stockLookup m it.productId = some st ∧ st < it.quantity := by
  unfold stockBelowRequested
  cases h : stockLookup m it.productId with
  | none => simp
  | some st => simp

/-- With at least one offending item, stock validation returns the product
ids of exactly the offending items. -/
theorem validateProductStock_error_of_mem (items : List CartItemRow)
    (m : List (String × Int)) (it : CartItemRow)
    (hit : it ∈ items) (hbad : stockBelowRequested m it = true) :
    validateProductStock items m =
      Except.error ((items.filter (stockBelowRequested m)).map CartItemRow.productId) := by
  unfold validateProductStock
  have hmem : it ∈ items.filter (stockBelowRequested m) :=
    List.mem_filter.mpr ⟨hit, hbad⟩
  cases hfil : items.filter (stockBelowRequested m) with
  | nil =>
    rw [hfil] at hmem
    exact absurd hmem (List.not_mem_nil it)
  | cons x xs => simp [hfil]

/-- A non-empty item list is not `isEmpty`. -/
theorem items_isEmpty_false (items : List CartItemRow) (h : items ≠ []) :
    items.isEmpty = false := by
  cases items with
  | nil => exact absurd rfl h
  | cons a l => rfl

/-- When an address with the given id exists, checkout's count test fails to
trigger. -/
theorem address_count_nonzero (addresses : List UserAddress) (aid : String)
    (h : ∃ a ∈ addresses, a.id = aid) :
    ((addresses.filter (fun a => a.id == aid)).length == 0) = false := by
  rcases h with ⟨a, hmem, hid⟩
  have hfm : a ∈ addresses.filter (fun a => a.id == aid) :=
    List.mem_filter.mpr ⟨hmem, by simp [hid]⟩
  cases hfil : addresses.filter (fun a => a.id == aid) with
  | nil =>
    rw [hfil] at hfm
    exact absurd hfm (List.not_mem_nil a)
  | cons x xs => rfl

/-- C2: checkout stock validation — when some cart item's requested quantity
exceeds its product's available stock, checkout fails with the
INSUFFICIENT_STOCK error, the state is left untouched (no order for any
item), and the error's product-id list contains every offending product of
the cart, and only those. -/
theorem checkout_insufficient_stock_names_all (s : DbState) (uid aid oid inv : String)
    (c0 : Cart) (hc : findCart s uid = some c0) (hne : c0.items ≠ [])
    (ha : ∃ a ∈ s.addresses, a.id = aid)
    (it : CartItemRow) (st : Int) (hit : it ∈ c0.items)
    (hstock : stockLookup (checkoutProductStock s c0) it.productId = some st)
    (hlt : st < it.quantity) :
    ∃ offenders,
      checkout s uid aid oid inv =
        (s, Except.error (CheckoutError.insufficientStock offenders)) ∧
      (∀ it2 ∈ c0.items, ∀ st2,
        stockLookup (checkoutProductStock s c0) it2.productId = some st2 →
        st2 < it2.quantity → it2.productId ∈ offenders) ∧
      (∀ pid ∈ offenders, ∃ it2 ∈ c0.items, it2.productId = pid ∧
        ∃ st2, stockLookup (checkoutProductStock s c0) it2.productId = some st2 ∧
          st2 < it2.quantity) := by
  have hbad : stockBelowRequested (checkoutProductStock s c0) it = true :=
    (stockBelowRequested_iff _ it).mpr ⟨st, hstock, hlt⟩
  have hval := validateProductStock_error_of_mem c0.items
    (checkoutProductStock s c0) it hit hbad
  refine ⟨(c0.items.filter (stockBelowRequested (checkoutProductStock s c0))).map
    CartItemRow.productId, ?_, ?_, ?_⟩
  · unfold checkout checkoutTx
    rw [hc]
    simp only [items_isEmpty_false c0.items hne, address_count_nonzero s.addresses aid ha,
      hval, Bool.false_eq_true, if_false]
  · intro it2 hit2 st2 hst2 hlt2
    exact List.mem_map.mpr ⟨it2, List.mem_filter.mpr
      ⟨hit2, (stockBelowRequested_iff _ it2).mpr ⟨st2, hst2, hlt2⟩⟩, rfl⟩
  · intro pid hpid
    rcases List.mem_map.mp hpid with ⟨it2, hmem, rfl⟩
    rcases List.mem_filter.mp hmem with ⟨hin, hb⟩
    rcases (stockBelowRequested_iff _ it2).mp hb with ⟨st2, hst2, hlt2⟩
    exact ⟨it2, hin, rfl, st2, hst2, hlt2⟩

/-- Witness for C2: the over-asking scenario cart (9 requested, 5 in stock)
fails checkout with INSUFFICIENT_STOCK and leaves the store untouched. -/
theorem checkout_insufficient_stock_names_all_witness :
    ∃ offenders,
      checkout dbOverstock "u1" "ad1" "o1" "i1" =
        (dbOverstock, Except.error (CheckoutError.insufficientStock offenders)) ∧
      (∀ it2 ∈ cartU1over.items, ∀ st2,
        stockLookup (checkoutProductStock dbOverstock cartU1over) it2.productId = some st2 →
        st2 < it2.quantity → it2.productId ∈ offenders) ∧
      (∀ pid ∈ offenders, ∃ it2 ∈ cartU1over.items, it2.productId = pid ∧
        ∃ st2, stockLookup (checkoutProductStock dbOverstock cartU1over) it2.productId =
            some st2 ∧ st2 < it2.quantity) :=
  checkout_insufficient_stock_names_all dbOverstock "u1" "ad1" "o1" "i1"
    cartU1over rfl (by decide) ⟨addressU2, by decide, rfl⟩
    { productId := "pa", quantity := 9 } 5 (by decide) (by decide) (by decide)

/-- Witness for C8: removing the existing two-unit item of the scenario cart
by a SET-to-zero upsert leaves u1's cart empty. -/
theorem upsertItem_set_zero_removal_witness :
    ∃ s2, addOrUpdateCartItem dbScenario "u1" "pa" 0 false "f1" =
        (s2, Except.ok (UpsertOutcome.removed "Arabica")) ∧
      findCart s2 "u1" = some { id := "c1", userId := "u1", items := [] } := by
  obtain ⟨s2, h1, h2, -, -, -, -⟩ :=
    (upsertItem_set_zero_removal dbScenario "u1" "pa" "f1" productA rfl
      (by decide)).2 cartU1 { productId := "pa", quantity := 2 } rfl rfl
  refine ⟨s2, h1, ?_⟩
  rw [h2]
  decide

/-- Every character written by `natDecimalAux` is a decimal digit, for any
sufficient fuel. -/
theorem natDecimalAux_digits :
    ∀ fuel n, n < fuel → ∀ c ∈ natDecimalAux fuel n, c.isDigit = true := by
  intro fuel
  induction fuel with
  | zero => intro n hn; omega
  | succ fuel ih =>
    intro n hn c hc
    unfold natDecimalAux at hc
    by_cases h : n < 10
    · rw [if_pos h] at hc
      have hd : ∀ r : Nat, r < 10 → (Char.ofNat (48 + r)).isDigit = true := by decide
      rcases List.mem_singleton.mp hc with rfl
      exact hd n h
    · rw [if_neg h] at hc
      rcases List.mem_append.mp hc with h1 | h2
      · have hdiv : n / 10 < n := Nat.div_lt_self (by omega) (by omega)
        exact ih (n / 10) (by omega) c h1
      · have hd : ∀ r : Nat, r < 10 → (Char.ofNat (48 + r)).isDigit = true := by decide
        rcases List.mem_singleton.mp h2 with rfl
        exact hd (n % 10) (Nat.mod_lt _ (by omega))

/-- Every character of `natDecimal n` is a decimal digit. -/
theorem natDecimal_digits (n : Nat) : ∀ c ∈ natDecimal n, c.isDigit = true :=
  natDecimalAux_digits (n + 1) n (by omega)

/-- `natDecimalAux` writes at most `k` digits for numbers below `10 ^ k`. -/
theorem natDecimalAux_length_le :
    ∀ fuel n k, n < fuel → 1 ≤ k → n < 10 ^ k →
      (natDecimalAux fuel n).length ≤ k := by
  intro fuel
  induction fuel with
  | zero => intro n k hn; omega
  | succ fuel ih =>
    intro n k hn hk hnk
    unfold natDecimalAux
    by_cases h : n < 10
    · rw [if_pos h]
      simpa using hk
    · rw [if_neg h]
      have hdiv : n / 10 < n := Nat.div_lt_self (by omega) (by omega)
      have hk2 : 2 ≤ k := by
        rcases Nat.lt_or_ge k 2 with hlt | hge
        · have hk1 : k = 1 := by omega
          subst hk1
          have hn10 : n < 10 := by simpa using hnk
          omega
        · exact hge
      have hpow : 10 ^ (k - 1) * 10 = 10 ^ k := by
        rw [← pow_succ]
        congr 1
        omega
      have hq : n / 10 < 10 ^ (k - 1) := by
        rw [Nat.div_lt_iff_lt_mul (by omega : (0:Nat) < 10)]
        omega
      have hlen := ih (n / 10) (k - 1) (by omega) (by omega) hq
      simp only [List.length_append, List.length_singleton]
      omega

/-- `natDecimal` writes at most `k` digits for numbers below `10 ^ k`. -/
theorem natDecimal_length_le (n k : Nat) (hk : 1 ≤ k) (h : n < 10 ^ k) :
    (natDecimal n).length ≤ k :=
  natDecimalAux_length_le (n + 1) n k (by omega) hk h

/-- Padding to a width at least the digit count yields exactly that width. -/
theorem padDigits_length (w n : Nat) (h : (natDecimal n).length ≤ w) :
    (padDigits w n).length = w := by
  simp only [padDigits, List.length_append, List.length_replicate]
  omega

/-- Every character of a zero-padded decimal rendering is a digit. -/
theorem padDigits_digits (w n : Nat) : ∀ c ∈ padDigits w n, c.isDigit = true := by
  intro c hc
  rcases List.mem_append.mp hc with h | h
  · rcases List.eq_of_mem_replicate h with rfl
    decide
  · exact natDecimal_digits n c h

/-- The `yyyyMMdd` rendering of an in-range date has exactly 8 characters. -/
theorem formatYyyymmdd_length (y m d : Nat)
    (hy : y < 10000) (hm : m < 100) (hd : d < 100) :
    (formatYyyymmdd y m d).length = 8 := by
  have e4 : (10 : Nat) ^ 4 = 10000 := by norm_num
  have e2 : (10 : Nat) ^ 2 = 100 := by norm_num
  have h1 : (padDigits 4 y).length = 4 :=
    padDigits_length 4 y (natDecimal_length_le y 4 (by omega) (by omega))
  have h2 : (padDigits 2 m).length = 2 :=
    padDigits_length 2 m (natDecimal_length_le m 2 (by omega) (by omega))
  have h3 : (padDigits 2 d).length = 2 :=
    padDigits_length 2 d (natDecimal_length_le d 2 (by omega) (by omega))
  show (padDigits 4 y ++ padDigits 2 m ++ padDigits 2 d).length = 8
  simp only [List.length_append]
  omega

/-- Every character of the `yyyyMMdd` rendering is a decimal digit. -/
theorem formatYyyymmdd_digits (y m d : Nat) :
    ∀ c ∈ (formatYyyymmdd y m d).toList, c.isDigit = true := by
  intro c hc
  have hc2 : c ∈ padDigits 4 y ++ padDigits 2 m ++ padDigits 2 d := hc
  rcases List.mem_append.mp hc2 with h12 | h3
  · rcases List.mem_append.mp h12 with h1 | h2
    · exact padDigits_digits 4 y c h1
    · exact padDigits_digits 2 m c h2
  · exact padDigits_digits 2 d c h3

/-- Each `nanoid` symbol belongs to the URL-safe alphabet. -/
theorem nanoidChar_mem : ∀ i : Fin 64, nanoidChar i ∈ nanoidUrlAlphabet := by decide

/-- `nanoid` emits exactly one character per random choice. -/
theorem nanoid_length (picks : List (Fin 64)) : (nanoid picks).length = picks.length := by
  show (picks.map nanoidChar).length = picks.length
  simp

/-- Every character `nanoid` emits is in the URL-safe alphabet. -/
theorem nanoid_chars (picks : List (Fin 64)) :
    ∀ c ∈ (nanoid picks).toList, c ∈ nanoidUrlAlphabet := by
  intro c hc
  have hmem : c ∈ picks.map nanoidChar := hc
  rcases List.mem_map.mp hmem with ⟨i, -, rfl⟩
  exact nanoidChar_mem i

/-- C9 amended: every generated invoice number has the shape
`INV-<8 digits>-<6 chars>`, where the date part is the zero-padded
`yyyyMMdd` rendering of the generation date and the six random characters
are drawn from the `nanoid` URL-safe alphabet (letters, digits, `-` and `_`)
rather than from the alphanumeric characters alone. -/
theorem invoice_number_format_amended (y m d : Nat) (picks : List (Fin 64))
    (h6 : picks.length = 6) (hy : y < 10000) (hm : m < 100) (hd : d < 100) :
    generateInvoiceNumber y m d picks =
      "INV-" ++ formatYyyymmdd y m d ++ "-" ++ nanoid picks ∧
    (formatYyyymmdd y m d).length = 8 ∧
    (∀ c ∈ (formatYyyymmdd y m d).toList, c.isDigit = true) ∧
    (nanoid picks).length = 6 ∧
    (∀ c ∈ (nanoid picks).toList, c ∈ nanoidUrlAlphabet) := by
  refine ⟨rfl, formatYyyymmdd_length y m d hy hm hd, formatYyyymmdd_digits y m d,
    ?_, nanoid_chars picks⟩
  rw [nanoid_length, h6]

/-- Witness for C9 amended at the concrete date 2024-12-13 and six concrete
random choices. -/
theorem invoice_number_format_amended_witness :
    (invoicePicks.length = 6 ∧ 2024 < 10000 ∧ 12 < 100 ∧ 13 < 100) ∧
    (generateInvoiceNumber 2024 12 13 invoicePicks =
        "INV-" ++ formatYyyymmdd 2024 12 13 ++ "-" ++ nanoid invoicePicks ∧
      (formatYyyymmdd 2024 12 13).length = 8 ∧
      (∀ c ∈ (formatYyyymmdd 2024 12 13).toList, c.isDigit = true) ∧
      (nanoid invoicePicks).length = 6 ∧
      (∀ c ∈ (nanoid invoicePicks).toList, c ∈ nanoidUrlAlphabet)) :=
  ⟨by decide,
   invoice_number_format_amended 2024 12 13 invoicePicks rfl
     (by decide) (by decide) (by decide)⟩

/-- The full behaviour of a successful checkout transaction body, under the
four conditions its guards test. -/
theorem checkoutTx_ok (s : DbState) (uid aid oid inv : String) (c0 : Cart)
    (hc : findCart s uid = some c0) (hne : c0.items ≠ [])
    (ha : ∃ a ∈ s.addresses, a.id = aid)
    (hval : validateProductStock c0.items (checkoutProductStock s c0) = Except.ok ()) :
    checkoutTx s uid aid oid inv =
      Except.ok (checkoutFinalState s uid aid oid inv c0,
        { order := checkoutOrderOf s uid aid oid c0,
          transaction := checkoutTxnOf s oid inv c0 }) := by
  unfold checkoutTx
  rw [hc]
  simp only [items_isEmpty_false c0.items hne, address_count_nonzero s.addresses aid ha,
    hval, Bool.false_eq_true, if_false]

/-- `find?` looks the same in a filtered list when the filter keeps every
possible hit. -/
theorem find?_filter_of_imp {α : Type} (l : List α) (p q : α → Bool)
    (h : ∀ x, p x = true → q x = true) :
    (l.filter q).find? p = l.find? p := by
  induction l with
  | nil => rfl
  | cons a t ih =>
    by_cases hp : p a = true
    · rw [List.filter_cons_of_pos (h a hp), List.find?_cons_of_pos _ hp,
        List.find?_cons_of_pos _ hp]
    · by_cases hq : q a = true
      · rw [List.filter_cons_of_pos hq, List.find?_cons_of_neg _ hp,
          List.find?_cons_of_neg _ hp, ih]
      · rw [List.filter_cons_of_neg (by simpa using hq), List.find?_cons_of_neg _ hp, ih]

/-- For product ids the cart references, looking a product up among the
products checkout fetched is the same as looking it up in the whole table. -/
theorem findProduct_checkoutProducts (s : DbState) (c0 : Cart) (it : CartItemRow)
    (hit : it ∈ c0.items) :
    (checkoutProducts s c0).find? (fun p => p.id == it.productId) =
      findProduct s it.productId := by
  unfold checkoutProducts findProduct
  apply find?_filter_of_imp
  intro x hx
  have hxid : x.id = it.productId := by simpa using hx
  rw [hxid]
  exact List.elem_eq_true_of_mem (List.mem_map_of_mem CartItemRow.productId hit)

/-- Folding `totalStep` over items whose products exist with numeric prices
adds exactly the spec sum to the accumulator. -/
theorem totalStep_foldl_eq (products : List Product) :
    ∀ (items : List CartItemRow),
      (∀ it ∈ items, ∃ p, products.find? (fun p => p.id == it.productId) = some p ∧
        ∃ v, p.price = PriceVal.num v) →
      ∀ acc : ℚ, List.foldl (totalStep products) (some acc) items =
        some (acc +
          (items.map (fun it => (it.quantity : ℚ) * priceNumIn products it.productId)).sum) := by
  intro items
  induction items with
  | nil =>
    intro _ acc
    simp
  | cons a t ih =>
    intro h acc
    rcases h a (List.mem_cons_self a t) with ⟨p, hp, v, hv⟩
    have hstep : totalStep products (some acc) a =
        some (acc + (a.quantity : ℚ) * priceNumIn products a.productId) := by
      unfold totalStep
      rw [hp]
      simp [jsNumber, jsAdd, jsScale, priceNumIn, hp, hv]
    rw [List.foldl_cons, hstep, ih (fun it hit => h it (List.mem_cons_of_mem a hit))]
    rw [List.map_cons, List.sum_cons]
    congr 1
    ring

/-- `calculateTotalPrice` refines the exact spec sum when every item's
product is found with a numeric price. -/
theorem calculateTotalPrice_eq_sum (items : List CartItemRow) (products : List Product)
    (h : ∀ it ∈ items, ∃ p, products.find? (fun p => p.id == it.productId) = some p ∧
      ∃ v, p.price = PriceVal.num v) :
    calculateTotalPrice items products =
      some ((items.map (fun it => (it.quantity : ℚ) * priceNumIn products it.productId)).sum) := by
  unfold calculateTotalPrice
  rw [totalStep_foldl_eq products items h 0, zero_add]

/-- The order-items `filterMap` is a plain `map` on any item list whose
products all exist. -/
theorem filterMap_orderItems_eq (s : DbState) :
    ∀ l : List CartItemRow, (∀ it ∈ l, (findProduct s it.productId).isSome = true) →
      l.filterMap (fun it => (findProduct s it.productId).map (fun p =>
        ({ productId := it.productId, quantity := it.quantity,
           price := p.price } : OrderItem))) =
      l.map (fun it =>
        ({ productId := it.productId, quantity := it.quantity,
           price := productPriceVal s it.productId } : OrderItem)) := by
  intro l
  induction l with
  | nil => intro _; rfl
  | cons a t ih =>
    intro h
    rcases Option.isSome_iff_exists.mp (h a (List.mem_cons_self a t)) with ⟨p, hp⟩
    simp only [List.filterMap_cons, List.map_cons, hp, Option.map_some']
    rw [ih (fun it hit => h it (List.mem_cons_of_mem a hit))]
    simp [productPriceVal, hp]

/-- Under the foreign-key invariant, the nested order items are exactly one
per cart item with the product's stored price copied. -/
theorem checkoutOrderItems_eq_map (s : DbState) (c0 : Cart)
    (hfk : ∀ it ∈ c0.items, (findProduct s it.productId).isSome = true) :
    checkoutOrderItems s c0 = c0.items.map (fun it =>
      { productId := it.productId, quantity := it.quantity,
        price := productPriceVal s it.productId }) := by
  unfold checkoutOrderItems
  exact filterMap_orderItems_eq s c0.items hfk

/-- Applying the batched decrements rewrites every product's stock by the
total decrement its id receives. -/
theorem applyStockUpdates_eq (us : List (String × Int)) :
    ∀ ps : List Product, applyStockUpdates us ps =
      ps.map (fun p => { p with stockQty := p.stockQty - keySum us p.id }) := by
  induction us with
  | nil =>
    intro ps
    unfold applyStockUpdates
    rw [List.foldl_nil]
    have hfun : (fun p : Product => { p with stockQty := p.stockQty - keySum [] p.id }) =
        fun p => p := by
      funext p
      cases p with
      | mk pid pname pprice pstock => simp [keySum]
    rw [hfun, List.map_id']
  | cons u us ih =>
    intro ps
    unfold applyStockUpdates at ih ⊢
    rw [List.foldl_cons, ih, List.map_map]
    apply List.map_congr_left
    intro p _
    by_cases h : (p.id == u.fst) = true
    · have hid : p.id = u.fst := by simpa using h
      have hkey : keySum (u :: us) p.id = u.snd + keySum us p.id := by
        unfold keySum
        rw [List.filter_cons_of_pos (by simp [hid]), List.map_cons, List.sum_cons]
      cases p with
      | mk pid pname pprice pstock =>
        simp only [Function.comp, if_pos h] at *
        simp [hkey]
        omega
    · have hid : ¬ (u.fst = p.id) := by
        intro heq
        exact h (by simp [heq])
      have hkey : keySum (u :: us) p.id = keySum us p.id := by
        unfold keySum
        rw [List.filter_cons_of_neg (by simpa using hid)]
      cases p with
      | mk pid pname pprice pstock =>
        simp only [Function.comp, if_neg h]
        simp [hkey]

/-- With an accumulator that has no key of the remaining items, and distinct
item product ids, the decrement aggregation appends one pair per item. -/
theorem decrementStock_foldl_eq :
    ∀ (items : List CartItemRow) (acc : List (String × Int)),
      (items.map CartItemRow.productId).Nodup →
      (∀ it ∈ items, acc.any (fun e => e.fst == it.productId) = false) →
      items.foldl bumpDecrement acc =
        acc ++ items.map (fun it => (it.productId, it.quantity)) := by
  intro items
  induction items with
  | nil =>
    intro acc _ _
    simp
  | cons a t ih =>
    intro acc hnd hacc
    have hbump : bumpDecrement acc a = acc ++ [(a.productId, a.quantity)] := by
      unfold bumpDecrement
      rw [hacc a (List.mem_cons_self a t)]
      simp
    rw [List.map_cons] at hnd
    rcases List.nodup_cons.mp hnd with ⟨hnotin, hndt⟩
    rw [List.foldl_cons, hbump,
      ih (acc ++ [(a.productId, a.quantity)]) hndt ?hacc2]
    · simp
    case hacc2 =>
      intro it hit
      rw [List.any_append]
      rw [hacc it (List.mem_cons_of_mem a hit)]
      have hne : (a.productId == it.productId) = false := by
        apply beq_eq_false_iff_ne.mpr
        intro heq
        exact hnotin (heq ▸ List.mem_map_of_mem CartItemRow.productId hit)
      simp [hne]

/-- With distinct product ids, the aggregated decrements are one pair per
cart item. -/
theorem decrementStock_eq (items : List CartItemRow)
    (hnd : (items.map CartItemRow.productId).Nodup) :
    decrementStock items = items.map (fun it => (it.productId, it.quantity)) := by
  unfold decrementStock
  have h := decrementStock_foldl_eq items [] hnd (fun it _ => rfl)
  simpa using h

/-- The decrement one product id receives equals the cart's quantity for it. -/
theorem keySum_map_pairs (items : List CartItemRow) (pid : String) :
    keySum (items.map (fun it => (it.productId, it.quantity))) pid =
      cartQuantity items pid := by
  unfold keySum cartQuantity
  rw [List.filter_map, List.map_map]
  rfl

/-- C3: checkout success postcondition — for a non-empty cart passing stock
validation, an existing shipping address, resolvable cart products with
numeric prices and distinct product ids, checkout returns a state with
exactly one new Order (status "pending", total equal to the sum of quantity
times product price, one OrderItem per cart item with the product's price
copied), product stock decremented by each product's cart quantity, one new
Transaction (status "Pending", amount equal to the order total, carrying the
invoice number), and the user's cart emptied but kept. -/
theorem checkout_success_postcondition (s : DbState) (uid aid oid inv : String)
    (c0 : Cart)
    (hc : findCart s uid = some c0) (hne : c0.items ≠ [])
    (ha : ∃ a ∈ s.addresses, a.id = aid)
    (hval : validateProductStock c0.items (checkoutProductStock s c0) = Except.ok ())
    (hfk : ∀ it ∈ c0.items, (findProduct s it.productId).isSome = true)
    (hnum : ∀ it ∈ c0.items, ∀ p, findProduct s it.productId = some p →
      ∃ v, p.price = PriceVal.num v)
    (hnd : (c0.items.map CartItemRow.productId).Nodup) :
    ∃ s2 order txn,
      checkout s uid aid oid inv = (s2, Except.ok { order := order, transaction := txn }) ∧
      s2.orders = s.orders ++ [order] ∧
      order.status = "pending" ∧
      order.totalPrice = some (specCartTotal s c0) ∧
      order.orderItems = c0.items.map (fun it =>
        ({ productId := it.productId, quantity := it.quantity,
           price := productPriceVal s it.productId } : OrderItem)) ∧
      s2.products = s.products.map (fun p =>
        { p with stockQty := p.stockQty - cartQuantity c0.items p.id }) ∧
      s2.transactions = s.transactions ++ [txn] ∧
      txn.status = "Pending" ∧ txn.amount = order.totalPrice ∧
      txn.noInvoice = inv ∧ txn.orderId = oid ∧
      findCart s2 uid = some { c0 with items := [] } ∧
      s2.carts.length = s.carts.length := by
  refine ⟨checkoutFinalState s uid aid oid inv c0, checkoutOrderOf s uid aid oid c0,
    checkoutTxnOf s oid inv c0, ?_, rfl, rfl, ?_, ?_, ?_, rfl, rfl, rfl, rfl, rfl, ?_, ?_⟩
  · unfold checkout
    rw [checkoutTx_ok s uid aid oid inv c0 hc hne ha hval]
  · show calculateTotalPrice c0.items (checkoutProducts s c0) = some (specCartTotal s c0)
    have hx : ∀ it ∈ c0.items, ∃ p,
        (checkoutProducts s c0).find? (fun p => p.id == it.productId) = some p ∧
        ∃ v, p.price = PriceVal.num v := by
      intro it hit
      rw [findProduct_checkoutProducts s c0 it hit]
      rcases Option.isSome_iff_exists.mp (hfk it hit) with ⟨p, hp⟩
      rcases hnum it hit p hp with ⟨v, hv⟩
      exact ⟨p, hp, v, hv⟩
    rw [calculateTotalPrice_eq_sum c0.items (checkoutProducts s c0) hx]
    unfold specCartTotal
    have hmapeq :
        c0.items.map (fun it => (it.quantity : ℚ) *
          priceNumIn (checkoutProducts s c0) it.productId) =
        c0.items.map (fun it => (it.quantity : ℚ) * productPriceNum s it.productId) := by
      apply List.map_congr_left
      intro it hit
      congr 1
      unfold productPriceNum priceNumIn
      rw [findProduct_checkoutProducts s c0 it hit]
      rfl
    rw [hmapeq]
  · exact checkoutOrderItems_eq_map s c0 hfk
  · show applyStockUpdates (decrementStock c0.items) s.products = _
    rw [applyStockUpdates_eq, decrementStock_eq c0.items hnd]
    have hfun : (fun p : Product =>
        { p with stockQty := p.stockQty -
            keySum (c0.items.map (fun it => (it.productId, it.quantity))) p.id }) =
        (fun p : Product =>
          { p with stockQty := p.stockQty - cartQuantity c0.items p.id }) := by
      funext p
      rw [keySum_map_pairs]
    rw [hfun]
  · have hg : ∀ c : Cart,
        ((fun c : Cart => if c.id == c0.id then { c with items := ([] : List CartItemRow) }
          else c) c).userId = c.userId := by
      intro c
      by_cases h : (c.id == c0.id) = true <;> simp [h]
    unfold findCart at hc ⊢
    show (s.carts.map _).find? _ = _
    rw [findCart_map_of_userId_eq s.carts _ uid hg, hc]
    simp
  · show (s.carts.map _).length = s.carts.length
    simp

/-- Witness for C3 at the spec's scenario store: a two-unit cart of a
45000-priced, five-in-stock product checked out to an existing address. -/
theorem checkout_success_postcondition_witness :
    ∃ s2 order txn,
      checkout dbScenario "u1" "ad1" "o1" "i1" =
        (s2, Except.ok { order := order, transaction := txn }) ∧
      s2.orders = dbScenario.orders ++ [order] ∧
      order.status = "pending" ∧
      order.totalPrice = some (specCartTotal dbScenario cartU1) ∧
      order.orderItems = cartU1.items.map (fun it =>
        ({ productId := it.productId, quantity := it.quantity,
           price := productPriceVal dbScenario it.productId } : OrderItem)) ∧
      s2.products = dbScenario.products.map (fun p =>
        { p with stockQty := p.stockQty - cartQuantity cartU1.items p.id }) ∧
      s2.transactions = dbScenario.transactions ++ [txn] ∧
      txn.status = "Pending" ∧ txn.amount = order.totalPrice ∧
      txn.noInvoice = "i1" ∧ txn.orderId = "o1" ∧
      findCart s2 "u1" = some { cartU1 with items := [] } ∧
      s2.carts.length = dbScenario.carts.length :=
  checkout_success_postcondition dbScenario "u1" "ad1" "o1" "i1" cartU1 rfl
    (by decide) ⟨addressU2, by decide, rfl⟩ rfl (by decide)
    (by
      intro it hit p hp
      have hit2 : it = { productId := "pa", quantity := 2 } := by
        simpa [cartU1] using hit
      subst hit2
      have hp2 : some productA = some p := by
        rw [← hp]
        rfl
      injection hp2 with h
      exact ⟨45000, by rw [← h]; rfl⟩)
    (by decide)

/-- C10: checkout's address verification only counts rows with the given
address id and never consults the owner, so a checkout quoting an existing
address of a different user succeeds. -/
theorem checkout_ignores_address_owner (s : DbState) (uid aid oid inv : String)
    (c0 : Cart) (a : UserAddress)
    (hc : findCart s uid = some c0) (hne : c0.items ≠ [])
    (hmem : a ∈ s.addresses) (hid : a.id = aid) (howner : a.userId ≠ uid)
    (hval : validateProductStock c0.items (checkoutProductStock s c0) = Except.ok ()) :
    ∃ s2 r, checkout s uid aid oid inv = (s2, Except.ok r) := by
  unfold checkout
  rw [checkoutTx_ok s uid aid oid inv c0 hc hne ⟨a, hmem, hid⟩ hval]
  exact ⟨_, _, rfl⟩

/-- Witness for C10: u1 checks out against the address owned by u2 and the
operation succeeds. -/
theorem checkout_ignores_address_owner_witness :
    addressU2.userId ≠ "u1" ∧
    ∃ s2 r, checkout dbScenario "u1" "ad1" "o1" "i1" = (s2, Except.ok r) :=
  ⟨by decide,
   checkout_ignores_address_owner dbScenario "u1" "ad1" "o1" "i1" cartU1 addressU2
     rfl (by decide) (by decide) rfl (by decide) rfl⟩

/-- C9 counterexample: the six random characters come from the `nanoid`
URL-safe alphabet, which contains `-` and `_`; drawing index 8 six times
yields the invoice number `INV-20241213-------`, whose six-character suffix
is not alphanumeric. -/
theorem invoice_suffix_counterexample :
    generateInvoiceNumber 2024 12 13 (List.replicate 6 ⟨8, by decide⟩) =
      "INV-20241213-------" ∧
    ((generateInvoiceNumber 2024 12 13 (List.replicate 6 ⟨8, by decide⟩)).drop 13).toList.all
      Char.isAlphanum = false := by
  constructor
  · decide
  · decide

end Amerta
